import Mathlib

set_option autoImplicit false

/-!
Shallow embedding of the Legal Services CRM backend (src/main.py and
src/schemas.py).

Documents are modeled as insertion-ordered association lists from field
names to BSON scalar values, mirroring Python dicts (whose keys are
unique). The request handlers are translated line by line from main.py.
The document-store client module (database.py) is imported by main.py but
is not among the sources; its two helpers create_document and
get_documents are therefore modeled from the specification and say so in
their doc comments. pymongo collection operations (find_one, update_one,
delete_one) belong to the opaque store dependency and are modeled by
their documented semantics over a list of documents in store order; the
store-assigned ObjectId of an insert is passed in explicitly as a fresh
hex string.
-/

/-- BSON scalar values as they appear in this API. Arrays and embedded
documents occur in this backend only inside the items field of an Order,
which the verified claims reach solely through the aggregation sub-query
that is modeled as an oracle, so field values are modeled as scalars. -/
inductive Value where
  | vNull : Value
  | vBool : Bool → Value
  | vNum : ℚ → Value
  | vStr : String → Value
  | vOid : String → Value
deriving DecidableEq, Repr

/-- A document: a Python dict, i.e. an insertion-ordered association list
with unique keys. -/
abbrev Doc := List (String × Value)

/-- Dict lookup: the value bound to the key, if present. -/
def getK (d : Doc) (k : String) : Option Value :=
  match d with
  | [] => none
  | kv :: rest => if kv.1 = k then some kv.2 else getK rest k

/-- Dict update: overwrite the binding in place if the key is present,
else append a new binding at the end, as Python dict assignment does. -/
def setK (d : Doc) (k : String) (v : Value) : Doc :=
  match d with
  | [] => [(k, v)]
  | kv :: rest => if kv.1 = k then (k, v) :: rest else kv :: setK rest k v

/-- Dict deletion (dict.pop): documents have unique keys, so removing
every binding of the key coincides with removing the one binding. -/
def eraseK (d : Doc) (k : String) : Doc :=
  d.filter (fun kv => kv.1 != k)

/-- Python truthiness of a field value; a bson ObjectId instance is
always truthy. -/
def pyTruthy : Value → Bool
  | .vNull => false
  | .vBool b => b
  | .vNum q => q != 0
  | .vStr s => s != ""
  | .vOid _ => true

/-- Python str() on values that can sit in an id field; str of an
ObjectId is its 24-character lowercase hex form. Numeric formatting is
approximated by the rational printer; no document stored by this backend
carries a numeric id. -/
def pyStr : Value → String
  | .vNull => "None"
  | .vBool b => if b then "True" else "False"
  | .vNum q => toString q
  | .vStr s => s
  | .vOid h => h

/-- Hexadecimal character test used by the ObjectId syntax check. -/
def isHexChar (c : Char) : Bool :=
  c.isDigit || ('a' ≤ c && c ≤ 'f') || ('A' ≤ c && c ≤ 'F')

/-- bson.ObjectId accepts a string argument exactly when it consists of
24 hexadecimal characters; anything else raises InvalidId. -/
def isValidObjectIdString (s : String) : Bool :=
  s.data.length == 24 && s.data.all isHexChar

/-- Lowercasing performed by ObjectId normalization: the str form of
ObjectId(s) is the lowercase form of s. -/
def lowerStr (s : String) : String :=
  String.mk (s.data.map Char.toLower)

/-- The Identifier Codec encode step: the ObjectId constructor applied to
an external string id, raising on malformed input, modeled as Except. -/
def encodeOid (s : String) : Except Unit String :=
  if isValidObjectIdString s then .ok (lowerStr s) else .error ()

/-- to_str_id from main.py: on a dict with a truthy internal id binding,
pop that binding and store its str form under the public key id;
otherwise return the dict unchanged. (A None argument returns None in
the source; every caller here passes a document.) -/
def to_str_id (d : Doc) : Doc :=
  match getK d "_id" with
  | some v => if pyTruthy v then setK (eraseK d "_id") "id" (Value.vStr (pyStr v)) else d
  | none => d

/-- Exact-match filter semantics: every filter binding must be matched
exactly by the document; the empty filter matches every document. -/
def matchesFilter (filt : Doc) (d : Doc) : Bool :=
  filt.all (fun kv => decide (getK d kv.1 = some kv.2))

/-- pymongo find_one: the first document in store order matching the
filter, if any. -/
def find_one (coll : List Doc) (filt : Doc) : Option Doc :=
  coll.find? (matchesFilter filt)

/-- The set operator of pymongo update_one: merge the update fields into
a document by field-level overwrite. -/
def applySet (upd : Doc) (d : Doc) : Doc :=
  upd.foldl (fun acc kv => setK acc kv.1 kv.2) d

/-- pymongo update_one with a set operator and no upsert: rewrite the
first matching document, if any; returns the new collection together
with matched_count. -/
def updateOne (coll : List Doc) (filt : Doc) (upd : Doc) : List Doc × Nat :=
  match coll with
  | [] => ([], 0)
  | d :: rest =>
    if matchesFilter filt d then (applySet upd d :: rest, 1)
    else
      let r := updateOne rest filt upd
      (d :: r.1, r.2)

/-- pymongo delete_one: remove the first matching document, if any;
returns the new collection together with deleted_count. -/
def deleteOne (coll : List Doc) (filt : Doc) : List Doc × Nat :=
  match coll with
  | [] => ([], 0)
  | d :: rest =>
    if matchesFilter filt d then (rest, 1)
    else
      let r := deleteOne rest filt
      (d :: r.1, r.2)

/-- Modelled from the spec: create_document lives in database.py, which
is not among the sources. Spec section 4.3: it inserts the validated
record verbatim as one new document and returns the new document id in
its string form. The store-assigned ObjectId is supplied explicitly as a
fresh lowercase hex string. -/
def create_document (coll : List Doc) (record : Doc) (fresh : String) : List Doc × String :=
  (coll ++ [("_id", Value.vOid fresh) :: record], fresh)

/-- Modelled from the spec: get_documents lives in database.py, which is
not among the sources. Spec section 4.3: list returns up to limit
documents matching an exact-match filter, the empty filter matching all,
in store-native order, modeled as insertion order. -/
def get_documents (coll : List Doc) (filt : Doc) (limit : Nat) : List Doc :=
  (coll.filter (matchesFilter filt)).take limit

/-- Error outcomes of the request handlers: 400 invalid id, 404 not
found, 500 database unavailable, and an uncaught exception escaping a
handler as an internal error. -/
inductive ApiError where
  | invalidId : ApiError
  | notFound : ApiError
  | storeUnavailable : ApiError
  | unhandled : ApiError
deriving DecidableEq, Repr

/-- GET customers by id from main.py: 500 when the store handle is None;
400 when the ObjectId constructor rejects the path id; 404 when no
document has that internal id; otherwise the matching document with its
internal id exposed as a string. -/
def get_customer (db : Option (List Doc)) (customer_id : String) : Except ApiError Doc :=
  match db with
  | none => .error .storeUnavailable
  | some coll =>
    match encodeOid customer_id with
    | .error _ => .error .invalidId
    | .ok oid =>
      match find_one coll [("_id", Value.vOid oid)] with
      | none => .error .notFound
      | some doc => .ok (to_str_id doc)

/-- PUT customers by id from main.py: the untyped payload is merged into
the matching document with a set operator, skipping schema validation;
404 when matched_count is zero. Returns the resulting collection. -/
def update_customer (db : Option (List Doc)) (customer_id : String) (payload : Doc) : Except ApiError (List Doc) :=
  match db with
  | none => .error .storeUnavailable
  | some coll =>
    match encodeOid customer_id with
    | .error _ => .error .invalidId
    | .ok oid =>
      let r := updateOne coll [("_id", Value.vOid oid)] payload
      if r.2 = 0 then .error .notFound else .ok r.1

/-- DELETE customers by id from main.py; 404 when deleted_count is zero.
Returns the resulting collection. -/
def delete_customer (db : Option (List Doc)) (customer_id : String) : Except ApiError (List Doc) :=
  match db with
  | none => .error .storeUnavailable
  | some coll =>
    match encodeOid customer_id with
    | .error _ => .error .invalidId
    | .ok oid =>
      let r := deleteOne coll [("_id", Value.vOid oid)]
      if r.2 = 0 then .error .notFound else .ok r.1

/-- pydantic required str field of the Customer schema: the field must be
present and be a string; anything else is a ValidationError. -/
def reqStrF (p : Doc) (k : String) : Except Unit Value :=
  match getK p k with
  | some (Value.vStr s) => .ok (Value.vStr s)
  | _ => .error ()

/-- Simplified model of the format check behind EmailStr: one at-sign
with a nonempty local part and a nonempty domain containing a dot. Every
email appearing in this development is plainly valid for both the model
and the library validator. -/
def isEmailLike (s : String) : Bool :=
  let loc := s.data.takeWhile (fun c => c != '@')
  match s.data.dropWhile (fun c => c != '@') with
  | [] => false
  | _ :: dom => !loc.isEmpty && !dom.isEmpty && dom.contains '.' && !dom.contains '@'

/-- pydantic EmailStr required field: present, a string, and of valid
email format. -/
def reqEmailF (p : Doc) (k : String) : Except Unit Value :=
  match getK p k with
  | some (Value.vStr s) => if isEmailLike s then .ok (Value.vStr s) else .error ()
  | _ => .error ()

/-- pydantic Optional str field with default None: absent or null dumps
to null; a string passes through; any other type fails. -/
def optStrF (p : Doc) (k : String) : Except Unit Value :=
  match getK p k with
  | none => .ok Value.vNull
  | some Value.vNull => .ok Value.vNull
  | some (Value.vStr s) => .ok (Value.vStr s)
  | some _ => .error ()

/-- pydantic str field with a literal default: absent takes the default;
a present string passes through with no constraint on its value (the
description text naming an enumeration is documentation only, not a
validation rule); any other type fails. -/
def defStrF (p : Doc) (k dflt : String) : Except Unit Value :=
  match getK p k with
  | none => .ok (Value.vStr dflt)
  | some (Value.vStr s) => .ok (Value.vStr s)
  | some _ => .error ()

/-- The Customer schema of schemas.py as a validator: given a JSON
payload it either produces the normalized model dump in field declaration
order, defaults applied, or fails with a ValidationError. Unknown keys
are ignored, as in the default pydantic configuration. -/
def validate_customer (p : Doc) : Except Unit Doc := do
  let name ← reqStrF p "name"
  let email ← reqEmailF p "email"
  let phone ← optStrF p "phone"
  let address ← optStrF p "address"
  let notes ← optStrF p "notes"
  let status ← defStrF p "status" "active"
  .ok [("name", name), ("email", email), ("phone", phone),
       ("address", address), ("notes", notes), ("status", status)]

/-- POST customers from main.py: FastAPI validates the body against the
Customer schema (422 on failure), then the handler calls create_document
and answers with the fresh id. -/
def create_customer (coll : List Doc) (p : Doc) (fresh : String) : Except Unit (List Doc × String) :=
  match validate_customer p with
  | .error e => .error e
  | .ok record => .ok (create_document coll record fresh)

/-- GET factfinds from main.py: when the query value customer_id is
truthy (present and nonempty) the filter requires exact equality on the
customer_id field, otherwise the filter is empty; the matching documents
pass through to_str_id. -/
def list_factfinds (coll : List Doc) (limit : Nat) (customer_id : Option String) : List Doc :=
  let filt : Doc :=
    match customer_id with
    | some cid => if cid = "" then [] else [("customer_id", Value.vStr cid)]
    | none => []
  (get_documents coll filt limit).map to_str_id

/-- The model dump of a default Settings record from schemas.py. -/
def settingsDefault : Doc :=
  [("company_name", Value.vStr "Your Law Firm"),
   ("contact_email", Value.vStr "info@example.com"),
   ("currency", Value.vStr "USD"),
   ("tax_rate", Value.vNum 0)]

/-- GET settings from main.py: find_one with the empty filter takes the
first document in store order; when the collection is empty, a default
Settings dump is inserted through create_document and returned as is
(without an id field); otherwise the stored document passes through
to_str_id. Returns the resulting collection with the response body. -/
def get_settings (db : Option (List Doc)) (fresh : String) : Except ApiError (List Doc × Doc) :=
  match db with
  | none => .error .storeUnavailable
  | some coll =>
    match find_one coll [] with
    | none => .ok ((create_document coll settingsDefault fresh).1, settingsDefault)
    | some doc => .ok (coll, to_str_id doc)

/-- Value of an unsigned digit run, as Python int parsing of digits. -/
def digitsVal (cs : List Char) : Nat :=
  cs.foldl (fun n c => 10 * n + (c.toNat - 48)) 0

/-- Simplified model of Python float() applied to a string: an optional
sign followed by a decimal literal with optional fractional part;
anything else raises ValueError. (Python also accepts exponents, inf and
nan spellings and surrounding whitespace; no claim depends on those.) -/
def parseDec (cs : List Char) : Option ℚ :=
  let signed : Bool × List Char :=
    match cs with
    | '-' :: r => (true, r)
    | '+' :: r => (false, r)
    | r => (false, r)
  let ip := signed.2.takeWhile Char.isDigit
  let rest := signed.2.dropWhile Char.isDigit
  let mag : Option ℚ :=
    match rest with
    | [] => if ip.isEmpty then none else some ((digitsVal ip : ℤ) : ℚ)
    | '.' :: fp =>
      if fp.all Char.isDigit && !(ip.isEmpty && fp.isEmpty) then
        some (((digitsVal ip : ℤ) : ℚ) + ((digitsVal fp : ℤ) : ℚ) / ((10 : ℚ) ^ fp.length))
      else none
    | _ => none
  match mag with
  | none => none
  | some q => some (if signed.1 then -q else q)

/-- Python float() on a field value: numbers pass through, booleans map
to zero and one, strings go through decimal parsing, and anything else
(None, ObjectId, arrays, sub-documents) raises. -/
def pyFloat : Value → Except Unit ℚ
  | .vNum q => .ok q
  | .vBool b => .ok (if b then 1 else 0)
  | .vStr s =>
    match parseDec s.data with
    | some q => .ok q
    | none => .error ()
  | _ => .error ()

/-- Python int() truncation of a float value toward zero. -/
def pyInt (q : ℚ) : ℤ :=
  if q < 0 then Rat.ceil q else Rat.floor q

/-- The revenue loop of analytics_summary: scan every order document and
add float of its total field, a missing total counting as zero; the
first conversion failure raises out of the loop. -/
def computeRevenue : List Doc → Except Unit ℚ
  | [] => .ok 0
  | d :: rest => do
    let x ← pyFloat ((getK d "total").getD (Value.vNum 0))
    let r ← computeRevenue rest
    .ok (x + r)

/-- The analytics response body of main.py. -/
structure Summary where
  customers : Nat
  orders : Nat
  revenue : ℚ
  top_products : List Doc
deriving DecidableEq, Repr

/-- One entry of the top_products list: the grouped product id together
with int of the summed quantity. -/
def topEntry (t : Value × ℚ) : Doc :=
  [("product_id", t.1), ("quantity", Value.vNum (pyInt t.2))]

/-- GET analytics summary from main.py: counts of the customer and order
collections, the revenue scan, and the top-products aggregation. The
aggregation pipeline runs inside the opaque store, so its outcome is
supplied as an oracle: either a failure or the grouped list of product id
and summed quantity pairs. The loop over the aggregation, and only it,
sits inside a try block whose except clause resets top_products to the
empty list; a revenue conversion failure escapes the handler. -/
def analytics_summary (db : Option (List Doc × List Doc)) (agg : Except Unit (List (Value × ℚ))) : Except ApiError Summary :=
  match db with
  | none => .error .storeUnavailable
  | some p =>
    match computeRevenue p.2 with
    | .error _ => .error .unhandled
    | .ok rev =>
      let tops : List Doc :=
        match agg with
        | .error _ => []
        | .ok ts => ts.map topEntry
      .ok ⟨p.1.length, p.2.length, rev, tops⟩

/-- A concrete valid Customer payload with the status field omitted,
used to exercise the create and get round trip. -/
def samplePayload : Doc :=
  [("name", Value.vStr "Jane Doe"), ("email", Value.vStr "jane@example.com")]

/-- The normalized model dump of samplePayload: optional fields null,
status defaulted. -/
def sampleRecord : Doc :=
  [("name", Value.vStr "Jane Doe"), ("email", Value.vStr "jane@example.com"),
   ("phone", Value.vNull), ("address", Value.vNull), ("notes", Value.vNull),
   ("status", Value.vStr "active")]

/-- A concrete well-formed ObjectId hex string. -/
def sampleOid : String := "0123456789abcdef01234567"

/-- The total of an order document as the revenue scan reads it: the
numeric value of the total field, a missing total counting as zero. -/
def totalOf (d : Doc) : ℚ :=
  match getK d "total" with
  | some (Value.vNum q) => q
  | _ => 0

theorem getK_setK_self (d : Doc) (k : String) (v : Value) :
    getK (setK d k v) k = some v := by
  induction d with
  | nil => simp [getK, setK]
  | cons kv rest ih =>
    by_cases hk : kv.1 = k <;> simp [getK, setK, hk, ih]

theorem getK_setK_ne (d : Doc) (k k2 : String) (v : Value) (h : k ≠ k2) :
    getK (setK d k2 v) k = getK d k := by
  induction d with
  | nil => simp [getK, setK, Ne.symm h]
  | cons kv rest ih =>
    by_cases hk : kv.1 = k2
    · simp [getK, setK, hk, Ne.symm h, h]
    · by_cases hk2 : kv.1 = k <;> simp [getK, setK, hk, hk2, ih, h]

theorem getK_eraseK_self (d : Doc) (k : String) :
    getK (eraseK d k) k = none := by
  induction d with
  | nil => rfl
  | cons kv rest ih =>
    rw [eraseK, List.filter_cons]
    rw [eraseK] at ih
    by_cases hk : kv.1 = k <;> simp [bne_iff_ne, hk, getK, ih]

theorem matchesFilter_singleton (k : String) (v : Value) (d : Doc) :
    matchesFilter [(k, v)] d = decide (getK d k = some v) := by
  simp [matchesFilter]

theorem find_one_nomatch (coll : List Doc) (filt : Doc)
    (h : ∀ d ∈ coll, matchesFilter filt d = false) :
    find_one coll filt = none := by
  rw [find_one, List.find?_eq_none]
  intro x hx
  simp [h x hx]

theorem find_one_append_last (coll : List Doc) (filt d : Doc)
    (h : ∀ x ∈ coll, matchesFilter filt x = false)
    (hd : matchesFilter filt d = true) :
    find_one (coll ++ [d]) filt = some d := by
  induction coll with
  | nil => simp [find_one, List.find?, hd]
  | cons c rest ih =>
    have hc : matchesFilter filt c = false := h c (by simp)
    have hrest : ∀ x ∈ rest, matchesFilter filt x = false := fun x hx => h x (by simp [hx])
    simpa [find_one, List.find?, hc] using ih hrest

theorem updateOne_nomatch (coll : List Doc) (filt upd : Doc)
    (h : ∀ d ∈ coll, matchesFilter filt d = false) :
    updateOne coll filt upd = (coll, 0) := by
  induction coll with
  | nil => rfl
  | cons c rest ih =>
    have hc : matchesFilter filt c = false := h c (by simp)
    have hrest : ∀ x ∈ rest, matchesFilter filt x = false := fun x hx => h x (by simp [hx])
    simp [updateOne, hc, ih hrest]

theorem deleteOne_nomatch (coll : List Doc) (filt : Doc)
    (h : ∀ d ∈ coll, matchesFilter filt d = false) :
    deleteOne coll filt = (coll, 0) := by
  induction coll with
  | nil => rfl
  | cons c rest ih =>
    have hc : matchesFilter filt c = false := h c (by simp)
    have hrest : ∀ x ∈ rest, matchesFilter filt x = false := fun x hx => h x (by simp [hx])
    simp [deleteOne, hc, ih hrest]

theorem computeRevenue_allNum (l : List Doc)
    (h : ∀ d ∈ l, ∀ v, getK d "total" = some v → ∃ q, v = Value.vNum q) :
    computeRevenue l = .ok ((l.map totalOf).sum) := by
  induction l with
  | nil => simp [computeRevenue]
  | cons d rest ih =>
    have hrest : ∀ x ∈ rest, ∀ v, getK x "total" = some v → ∃ q, v = Value.vNum q :=
      fun x hx => h x (by simp [hx])
    have hd : pyFloat ((getK d "total").getD (Value.vNum 0)) = .ok (totalOf d) := by
      cases hg : getK d "total" with
      | none => simp [pyFloat, totalOf, hg]
      | some v =>
        obtain ⟨q, hq⟩ := h d (by simp) v hg
        subst hq
        simp [pyFloat, totalOf, hg]
    simp [computeRevenue, hd, ih hrest, bind, Except.bind]

theorem computeRevenue_error_of_mem (l : List Doc) (d : Doc)
    (hmem : d ∈ l)
    (hbad : pyFloat ((getK d "total").getD (Value.vNum 0)) = .error ()) :
    computeRevenue l = .error () := by
  induction l with
  | nil => cases hmem
  | cons c rest ih =>
    rcases List.mem_cons.mp hmem with hc | hc
    · subst hc
      simp [computeRevenue, hbad, bind, Except.bind]
    · cases hp : pyFloat ((getK c "total").getD (Value.vNum 0)) with
      | error e => simp [computeRevenue, hp, bind, Except.bind]
      | ok x => simp [computeRevenue, hp, ih hc, bind, Except.bind]

theorem bind_ok {ε α β : Type} (x : Except ε α) (f : α → Except ε β) (b : β)
    (h : (x >>= f) = .ok b) : ∃ a, x = .ok a ∧ f a = .ok b := by
  cases x with
  | error e => simp [Bind.bind, Except.bind] at h
  | ok a => exact ⟨a, rfl, by simpa [Bind.bind, Except.bind] using h⟩

theorem reqStrF_ok (p : Doc) (k : String) (v : Value)
    (h : reqStrF p k = .ok v) : getK p k = some v := by
  cases hg : getK p k with
  | none => simp [reqStrF, hg] at h
  | some val =>
    cases val <;> simp [reqStrF, hg] at h
    exact congrArg some h

theorem reqEmailF_ok (p : Doc) (k : String) (v : Value)
    (h : reqEmailF p k = .ok v) : getK p k = some v := by
  cases hg : getK p k with
  | none => simp [reqEmailF, hg] at h
  | some val =>
    cases val with
    | vStr s =>
      simp only [reqEmailF, hg] at h
      split at h
      · exact congrArg some (Except.ok.inj h)
      · simp at h
    | vNull => simp [reqEmailF, hg] at h
    | vBool b => simp [reqEmailF, hg] at h
    | vNum q => simp [reqEmailF, hg] at h
    | vOid o => simp [reqEmailF, hg] at h

theorem optStrF_ok (p : Doc) (k : String) (v : Value)
    (h : optStrF p k = .ok v) :
    getK p k = some v ∨ (getK p k = none ∧ v = Value.vNull) := by
  cases hg : getK p k with
  | none =>
    right
    simp [optStrF, hg] at h
    exact ⟨rfl, h.symm⟩
  | some val =>
    left
    cases val <;> simp [optStrF, hg] at h <;> exact congrArg some h

theorem defStrF_ok (p : Doc) (k dflt : String) (v : Value)
    (h : defStrF p k dflt = .ok v) :
    getK p k = some v ∨ (getK p k = none ∧ v = Value.vStr dflt) := by
  cases hg : getK p k with
  | none =>
    right
    simp [defStrF, hg] at h
    exact ⟨rfl, h.symm⟩
  | some val =>
    left
    cases val <;> simp [defStrF, hg] at h
    exact congrArg some h

theorem defStrF_none (p : Doc) (k dflt : String)
    (h : getK p k = none) : defStrF p k dflt = .ok (Value.vStr dflt) := by
  simp [defStrF, h]

/-- C1: counterexample. The claim says a create payload whose
enum-constrained field carries a value outside its declared set fails
validation; in the code the Customer schema declares status as a plain
str whose enumeration lives only in the description text, so a payload
with status bogus validates successfully into a record carrying that
status instead of failing with a ValidationError. -/
theorem validate_customer_accepts_bogus_status :
    validate_customer
        [("name", Value.vStr "Jane Doe"),
         ("email", Value.vStr "jane@example.com"),
         ("status", Value.vStr "bogus")] =
      .ok [("name", Value.vStr "Jane Doe"),
           ("email", Value.vStr "jane@example.com"),
           ("phone", Value.vNull),
           ("address", Value.vNull),
           ("notes", Value.vNull),
           ("status", Value.vStr "bogus")] ∧
    ¬("bogus" = "active" ∨ "bogus" = "lead" ∨ "bogus" = "archived") :=
  ⟨rfl, by decide⟩

/-- C1 (amended): schema validation does not enforce the enumerations
named in the field descriptions: for every string s, an otherwise valid
Customer payload whose status field carries s validates successfully,
and the validated record keeps status s. -/
theorem validate_customer_status_unconstrained (s : String) :
    validate_customer
        [("name", Value.vStr "Jane Doe"),
         ("email", Value.vStr "jane@example.com"),
         ("status", Value.vStr s)] =
      .ok [("name", Value.vStr "Jane Doe"),
           ("email", Value.vStr "jane@example.com"),
           ("phone", Value.vNull),
           ("address", Value.vNull),
           ("notes", Value.vNull),
           ("status", Value.vStr s)] := rfl

/-- C2: a string id of invalid ObjectId syntax makes get, update and
delete fail with InvalidIdentifier and never NotFound; a well-formed id
matching no stored document makes them fail with NotFound; and
conversely a NotFound from get can only arise for a well-formed id that
matches no stored document. -/
theorem id_syntax_error_taxonomy (coll : List Doc) (s : String) (payload : Doc) :
    (isValidObjectIdString s = false →
      get_customer (some coll) s = .error .invalidId ∧
      update_customer (some coll) s payload = .error .invalidId ∧
      delete_customer (some coll) s = .error .invalidId) ∧
    (isValidObjectIdString s = true →
      (∀ d ∈ coll, getK d "_id" ≠ some (Value.vOid (lowerStr s))) →
      get_customer (some coll) s = .error .notFound ∧
      update_customer (some coll) s payload = .error .notFound ∧
      delete_customer (some coll) s = .error .notFound) ∧
    (get_customer (some coll) s = .error .notFound →
      isValidObjectIdString s = true ∧
      ∀ d ∈ coll, getK d "_id" ≠ some (Value.vOid (lowerStr s))) := by
  refine ⟨fun hbad => ?_, fun hok hnone => ?_, fun hnf => ?_⟩
  · refine ⟨?_, ?_, ?_⟩ <;>
      simp [get_customer, update_customer, delete_customer, encodeOid, hbad]
  · have hm : ∀ d ∈ coll, matchesFilter [("_id", Value.vOid (lowerStr s))] d = false := by
      intro d hd
      rw [matchesFilter_singleton]
      exact decide_eq_false (hnone d hd)
    have hfind := find_one_nomatch coll _ hm
    have hupd := updateOne_nomatch coll _ payload hm
    have hdel := deleteOne_nomatch coll _ hm
    refine ⟨?_, ?_, ?_⟩ <;>
      simp [get_customer, update_customer, delete_customer, encodeOid, hok,
            hfind, hupd, hdel]
  · by_cases hv : isValidObjectIdString s = true
    · refine ⟨hv, fun d hd hcontra => ?_⟩
      have hm : matchesFilter [("_id", Value.vOid (lowerStr s))] d = true := by
        rw [matchesFilter_singleton]
        exact decide_eq_true hcontra
      rcases hfo : find_one coll [("_id", Value.vOid (lowerStr s))] with _ | doc
      · rw [find_one, List.find?_eq_none] at hfo
        exact hfo d hd hm
      · simp [get_customer, encodeOid, hv, hfo] at hnf
    · rw [Bool.not_eq_true] at hv
      simp [get_customer, encodeOid, hv] at hnf

/-- C2 witness: on the empty collection, the malformed id zz yields
InvalidIdentifier and a well-formed unmatched id yields NotFound. -/
theorem id_syntax_error_taxonomy_witness :
    get_customer (some []) "zz" = .error .invalidId ∧
    get_customer (some []) "0123456789abcdef01234567" = .error .notFound :=
  ⟨((id_syntax_error_taxonomy [] "zz" []).1 (by decide)).1,
   ((id_syntax_error_taxonomy [] "0123456789abcdef01234567" []).2.1
      (by decide) (by simp)).1⟩

/-- C4: on an empty settings collection the first read inserts exactly
one document carrying the declared defaults and answers with those
defaults; every subsequent read finds that same singleton document and
answers with its contents, the internal id exposed as the public id
field, leaving the collection unchanged. -/
theorem settings_first_read_creates_defaults (fresh : String) :
    get_settings (some []) fresh =
      .ok ([("_id", Value.vOid fresh) :: settingsDefault], settingsDefault) ∧
    [("_id", Value.vOid fresh) :: settingsDefault].length = 1 ∧
    (∀ fresh2 : String,
      get_settings (some [("_id", Value.vOid fresh) :: settingsDefault]) fresh2 =
        .ok ([("_id", Value.vOid fresh) :: settingsDefault],
             settingsDefault ++ [("id", Value.vStr fresh)])) :=
  ⟨rfl, rfl, fun _ => rfl⟩

/-- C5: counterexample. The claim says every supplied customer_id query
value acts as an exact-match filter; the handler builds the filter only
when the value is truthy, so the supplied empty string returns every
stored factfind, here one whose customer_id field is a, not the empty
string. -/
theorem list_factfinds_empty_string_cex :
    list_factfinds [[("customer_id", Value.vStr "a")]] 10 (some "") =
      [[("customer_id", Value.vStr "a")]] ∧
    getK [("customer_id", Value.vStr "a")] "customer_id" ≠ some (Value.vStr "") :=
  ⟨rfl, by decide⟩

/-- C5 (amended): for every supplied nonempty customer_id the factfind
listing returns exactly the stored documents whose customer_id field
equals that value, up to the limit, in store order; when customer_id is
absent (and likewise when it is empty, being falsy) all documents up to
the limit are returned. -/
theorem list_factfinds_exact_match (coll : List Doc) (limit : Nat) (cid : String)
    (h : cid ≠ "") :
    list_factfinds coll limit (some cid) =
      ((coll.filter (fun d => decide (getK d "customer_id" = some (Value.vStr cid)))).take
        limit).map to_str_id ∧
    list_factfinds coll limit none = (coll.take limit).map to_str_id := by
  constructor
  · simp only [list_factfinds]
    rw [if_neg h]
    simp only [get_documents]
    congr 1
    congr 1
    apply List.filter_congr
    intro d _
    rw [matchesFilter_singleton]
  · have hfe : (matchesFilter [] : Doc → Bool) = fun _ => true :=
      funext fun d => by simp [matchesFilter]
    simp [list_factfinds, get_documents, hfe]

/-- C5 witness for the amended claim: with two stored factfinds the
filter a selects exactly the matching one. -/
theorem list_factfinds_exact_match_witness :
    list_factfinds [[("customer_id", Value.vStr "a")], [("customer_id", Value.vStr "b")]]
        5 (some "a") = [[("customer_id", Value.vStr "a")]] :=
  ((list_factfinds_exact_match
      [[("customer_id", Value.vStr "a")], [("customer_id", Value.vStr "b")]]
      5 "a" (by decide)).1).trans (by rfl)

/-- C6: when the top-products aggregation fails, the analytics summary
still succeeds: top_products is exactly the empty sequence and the
customer count, order count and revenue are computed and returned. -/
theorem analytics_top_products_isolated (cust ord : List Doc) (r : ℚ)
    (hrev : computeRevenue ord = .ok r) :
    analytics_summary (some (cust, ord)) (.error ()) =
      .ok ⟨cust.length, ord.length, r, []⟩ := by
  simp [analytics_summary, hrev]

/-- C6 witness: empty collections with a failing aggregation. -/
theorem analytics_top_products_isolated_witness :
    analytics_summary (some ([], [])) (.error ()) = .ok ⟨0, 0, 0, []⟩ :=
  analytics_top_products_isolated [] [] 0 rfl

/-- C7: updating through a well-formed id that matches no stored
document answers NotFound and the update operation leaves the collection
exactly as it was: no mutation happens on the error path. -/
theorem update_missing_id_no_mutation (coll : List Doc) (s : String) (payload : Doc)
    (hvalid : isValidObjectIdString s = true)
    (hnone : ∀ d ∈ coll, getK d "_id" ≠ some (Value.vOid (lowerStr s))) :
    update_customer (some coll) s payload = .error .notFound ∧
    (updateOne coll [("_id", Value.vOid (lowerStr s))] payload).1 = coll := by
  have hm : ∀ d ∈ coll, matchesFilter [("_id", Value.vOid (lowerStr s))] d = false := by
    intro d hd
    rw [matchesFilter_singleton]
    exact decide_eq_false (hnone d hd)
  have hupd := updateOne_nomatch coll _ payload hm
  constructor
  · simp [update_customer, encodeOid, hvalid, hupd]
  · rw [hupd]

/-- C7 witness: one stored customer with a different id; the update
answers NotFound and the collection is unchanged. -/
theorem update_missing_id_no_mutation_witness :
    update_customer (some [[("_id", Value.vOid "ffffffffffffffffffffffff")]])
        "0123456789abcdef01234567" [("name", Value.vStr "x")] = .error .notFound ∧
    (updateOne [[("_id", Value.vOid "ffffffffffffffffffffffff")]]
        [("_id", Value.vOid (lowerStr "0123456789abcdef01234567"))]
        [("name", Value.vStr "x")]).1 =
      [[("_id", Value.vOid "ffffffffffffffffffffffff")]] :=
  update_missing_id_no_mutation _ _ _ (by decide) (by decide)

/-- C8: whenever every stored order document carries a numeric total or
no total at all, the analytics summary succeeds and its revenue field is
the sum of the totals over all order documents, a missing total counting
as zero. -/
theorem analytics_revenue_sum (cust ord : List Doc)
    (agg : Except Unit (List (Value × ℚ)))
    (h : ∀ d ∈ ord, ∀ v, getK d "total" = some v → ∃ q, v = Value.vNum q) :
    ∃ s, analytics_summary (some (cust, ord)) agg = .ok s ∧
      s.revenue = (ord.map totalOf).sum := by
  have hrev := computeRevenue_allNum ord h
  refine ⟨⟨cust.length, ord.length, (ord.map totalOf).sum,
    match agg with | .error _ => [] | .ok ts => ts.map topEntry⟩, ?_, rfl⟩
  simp [analytics_summary, hrev]

/-- C8 witness: with zero orders the revenue is zero; with totals ten
and five the revenue is fifteen. -/
theorem analytics_revenue_sum_witness :
    (∃ s, analytics_summary (some ([], [])) (.ok []) = .ok s ∧ s.revenue = 0) ∧
    (∃ s, analytics_summary
        (some ([], [[("total", Value.vNum 10)], [("total", Value.vNum 5)]]))
        (.ok []) = .ok s ∧ s.revenue = 15) := by
  constructor
  · obtain ⟨s, h1, h2⟩ := analytics_revenue_sum [] [] (.ok []) (by simp)
    exact ⟨s, h1, h2.trans (by simp)⟩
  · obtain ⟨s, h1, h2⟩ := analytics_revenue_sum []
      [[("total", Value.vNum 10)], [("total", Value.vNum 5)]] (.ok [])
      (by intro d hd v hv
          simp at hd
          rcases hd with hd | hd <;> subst hd <;>
            simp [getK] at hv <;> exact ⟨_, hv.symm⟩)
    refine ⟨s, h1, h2.trans ?_⟩
    norm_num [totalOf, getK]

/-- C9: a stored document whose internal id field holds an ObjectId
comes back to the caller with that field removed and its string form
stored under the public field name id. -/
theorem to_str_id_replaces_internal_id (d : Doc) (h : String)
    (hid : getK d "_id" = some (Value.vOid h)) :
    to_str_id d = setK (eraseK d "_id") "id" (Value.vStr h) ∧
    getK (to_str_id d) "_id" = none ∧
    getK (to_str_id d) "id" = some (Value.vStr h) := by
  have heq : to_str_id d = setK (eraseK d "_id") "id" (Value.vStr h) := by
    simp [to_str_id, hid, pyTruthy, pyStr]
  refine ⟨heq, ?_, ?_⟩
  · rw [heq, getK_setK_ne _ _ _ _ (by decide), getK_eraseK_self]
  · rw [heq, getK_setK_self]

/-- C9 witness: a concrete stored document with an ObjectId internal id
field and one payload field. -/
theorem to_str_id_replaces_internal_id_witness :
    to_str_id [("_id", Value.vOid "abcabcabcabcabcabcabcabc"), ("name", Value.vStr "Bob")] =
      [("name", Value.vStr "Bob"), ("id", Value.vStr "abcabcabcabcabcabcabcabc")] ∧
    getK (to_str_id [("_id", Value.vOid "abcabcabcabcabcabcabcabc"),
      ("name", Value.vStr "Bob")]) "_id" = none :=
  ⟨((to_str_id_replaces_internal_id
      [("_id", Value.vOid "abcabcabcabcabcabcabcabc"), ("name", Value.vStr "Bob")]
      "abcabcabcabcabcabcabcabc" rfl).1).trans rfl,
   (to_str_id_replaces_internal_id
      [("_id", Value.vOid "abcabcabcabcabcabcabcabc"), ("name", Value.vStr "Bob")]
      "abcabcabcabcabcabcabcabc" rfl).2.1⟩

/-- C10: if any stored order document carries a total that float cannot
convert, the whole analytics summary fails with an uncaught error, even
when the top-products aggregation would succeed: only that aggregation
is isolated against failure, the revenue scan is not. -/
theorem analytics_revenue_not_isolated (cust ord : List Doc)
    (agg : Except Unit (List (Value × ℚ))) (d : Doc)
    (hmem : d ∈ ord)
    (hbad : pyFloat ((getK d "total").getD (Value.vNum 0)) = .error ()) :
    analytics_summary (some (cust, ord)) agg = .error .unhandled := by
  have hrev := computeRevenue_error_of_mem ord d hmem hbad
  simp [analytics_summary, hrev]

/-- C3: for every valid Customer payload, create followed by get with
the returned id succeeds and returns the validated record (defaults
applied) plus the freshly assigned string id under the public field id;
the record agrees with the input payload on every schema field the
payload supplies, and status is defaulted to active when omitted. -/
theorem create_then_get_customer (coll : List Doc) (p rec : Doc) (fresh : String)
    (hval : validate_customer p = .ok rec)
    (hfresh : encodeOid fresh = .ok fresh)
    (hnew : ∀ d ∈ coll, getK d "_id" ≠ some (Value.vOid fresh)) :
    create_customer coll p fresh =
      .ok (coll ++ [("_id", Value.vOid fresh) :: rec], fresh) ∧
    get_customer (some (coll ++ [("_id", Value.vOid fresh) :: rec])) fresh =
      .ok (rec ++ [("id", Value.vStr fresh)]) ∧
    (getK p "status" = none → getK rec "status" = some (Value.vStr "active")) ∧
    (∀ k ∈ ["name", "email", "phone", "address", "notes", "status"],
      ∀ v, getK p k = some v → getK rec k = some v) := by
  have hval2 := hval
  unfold validate_customer at hval2
  obtain ⟨namev, hname, h2⟩ := bind_ok _ _ _ hval2
  obtain ⟨emailv, hemail, h3⟩ := bind_ok _ _ _ h2
  obtain ⟨phonev, hphone, h4⟩ := bind_ok _ _ _ h3
  obtain ⟨addrv, haddr, h5⟩ := bind_ok _ _ _ h4
  obtain ⟨notesv, hnotes, h6⟩ := bind_ok _ _ _ h5
  obtain ⟨statusv, hstatus, h7⟩ := bind_ok _ _ _ h6
  have hrec : rec =
      [("name", namev), ("email", emailv), ("phone", phonev),
       ("address", addrv), ("notes", notesv), ("status", statusv)] :=
    (Except.ok.inj h7).symm
  subst hrec
  refine ⟨?_, ?_, ?_, ?_⟩
  · simp [create_customer, hval, create_document]
  · have hmcoll : ∀ x ∈ coll, matchesFilter [("_id", Value.vOid fresh)] x = false := by
      intro x hx
      rw [matchesFilter_singleton]
      exact decide_eq_false (hnew x hx)
    have hmd : matchesFilter [("_id", Value.vOid fresh)]
        (("_id", Value.vOid fresh) ::
          [("name", namev), ("email", emailv), ("phone", phonev),
           ("address", addrv), ("notes", notesv), ("status", statusv)]) = true := by
      rw [matchesFilter_singleton]
      exact decide_eq_true rfl
    have hfind := find_one_append_last coll _ _ hmcoll hmd
    simp only [get_customer, hfresh, hfind]
    rfl
  · intro h0
    have hdef : Value.vStr "active" = statusv :=
      Except.ok.inj ((defStrF_none p "status" "active" h0).symm.trans hstatus)
    exact congrArg some hdef.symm
  · intro k hk v hv
    have hkcases : k = "name" ∨ k = "email" ∨ k = "phone" ∨ k = "address" ∨
        k = "notes" ∨ k = "status" := by simpa using hk
    rcases hkcases with rfl | rfl | rfl | rfl | rfl | rfl
    · have h1 := reqStrF_ok p "name" namev hname
      exact congrArg some (Option.some.inj (h1.symm.trans hv))
    · have h1 := reqEmailF_ok p "email" emailv hemail
      exact congrArg some (Option.some.inj (h1.symm.trans hv))
    · rcases optStrF_ok p "phone" phonev hphone with h1 | ⟨h1, _⟩
      · exact congrArg some (Option.some.inj (h1.symm.trans hv))
      · rw [h1] at hv
        cases hv
    · rcases optStrF_ok p "address" addrv haddr with h1 | ⟨h1, _⟩
      · exact congrArg some (Option.some.inj (h1.symm.trans hv))
      · rw [h1] at hv
        cases hv
    · rcases optStrF_ok p "notes" notesv hnotes with h1 | ⟨h1, _⟩
      · exact congrArg some (Option.some.inj (h1.symm.trans hv))
      · rw [h1] at hv
        cases hv
    · rcases defStrF_ok p "status" "active" statusv hstatus with h1 | ⟨h1, _⟩
      · exact congrArg some (Option.some.inj (h1.symm.trans hv))
      · rw [h1] at hv
        cases hv

/-- C3 witness: creating the sample payload (status omitted) under the
sample id and reading it back yields the validated record plus the
public id, with status defaulted to active. -/
theorem create_then_get_customer_witness :
    get_customer (some ([] ++ [("_id", Value.vOid sampleOid) :: sampleRecord]))
        sampleOid = .ok (sampleRecord ++ [("id", Value.vStr sampleOid)]) ∧
    getK sampleRecord "status" = some (Value.vStr "active") :=
  ⟨(create_then_get_customer [] samplePayload sampleRecord sampleOid rfl rfl
      (by simp)).2.1,
   (create_then_get_customer [] samplePayload sampleRecord sampleOid rfl rfl
      (by simp)).2.2.1 rfl⟩

/-- C10 witness: one stored order whose total is null makes the whole
summary fail although the aggregation oracle succeeds. -/
theorem analytics_revenue_not_isolated_witness :
    analytics_summary (some ([], [[("total", Value.vNull)]])) (.ok []) =
      .error .unhandled :=
  analytics_revenue_not_isolated [] _ (.ok []) [("total", Value.vNull)]
    (by simp) rfl
